import Mathlib

/-!
Verification of the pylox core pipeline (scanner, parser, tree-walking
interpreter) against its natural-language specification.

The definitions below are a shallow embedding of the Python sources:

  * `src/pylox/tokens.py`      — `Tok`, `Token`
  * `src/pylox/scanner.py`     — `scan`, `generate_tokens`, `get_next_token`,
                                 the per-kind token helpers
  * `src/pylox/parser.py`      — the active recursive-descent functions
                                 (`next_expression` … `primary_expression`)
  * `src/pylox/environment.py` — `Environment` (a pure chained-frame model
                                 for the interpreter, and an explicit heap
                                 model to reason about mutation)
  * `src/pylox/interpreter.py` — `evaluate`, `interpret_statement` and friends

Python strings are modelled as `List Char`, Python `dict` as an association
list with Python's update-in-place-or-append semantics, Python `float` as `ℚ`
(every arithmetic fact proved here is exact, so rounding is unobservable),
and Python `None` as `Value.nil`.  Host-level exceptions that escape the
interpreter (`ZeroDivisionError`, `AttributeError`, `TypeError`,
`AssertionError`) are distinguished error constructors.  Character
classification predicates (`isdigit`, `isspace`, `isidentifier`, `isalnum`)
are embedded on their ASCII fragment, which covers every input appearing in
the claims.
-/

namespace Pylox

/-! ## Token model (`tokens.py`) -/

/-- The token-category enum `Tok` from `tokens.py`. -/
inductive Tok where
  | LEFT_PAREN | RIGHT_PAREN | LEFT_BRACE | RIGHT_BRACE
  | COMMA | DOT | MINUS | PLUS | SEMICOLON | SLASH | STAR
  | BANG | BANG_EQUAL | EQUAL | EQUAL_EQUAL
  | GREATER | GREATER_EQUAL | LESS | LESS_EQUAL
  | IDENTIFIER | STRING | NUMBER | COMMENT
  | AND | CLASS | ELSE | FALSE | FUN | FOR | IF | NIL
  | OR | PRINT | RETURN | SUPER | THIS | TRUE | VAR | WHILE
  | WHITESPACE
  | EOF
deriving DecidableEq, Repr

/-- The `Token` dataclass from `tokens.py`: fields `token_type`, `lexeme`,
`start`, `line`, `length` (default 1), `n_newlines` (default 0).
Note that it has no `value`/`literal` field. -/
structure Token where
  token_type : Tok
  lexeme : String
  start : Nat
  line : Nat
  length : Nat := 1
  n_newlines : Nat := 0
deriving DecidableEq, Repr

/-! ## Scanner (`scanner.py`) -/

/-- Scanner-level failures.  `scanner` is the `ScannerError{line, message}`
of the source; `hostIndexError` models an uncaught Python `IndexError`
(no reachable path produces it); `fuelOut` marks exhaustion of the
recursion bound used to express the scanner's `while` loop (the source
loop always advances, so real runs never reach it). -/
inductive ScanErr where
  | scanner (line : Nat) (message : String)
  | hostIndexError
  | fuelOut
deriving DecidableEq, Repr

/-- `get(code, offset)` from `scanner.py`: the character at `offset`, or
`""` (here `none`) when the offset is out of range. -/
def pyGet (code : List Char) (i : Nat) : Option Char :=
  code.get? i

/-- Python `str.isdigit` on the ASCII fragment. -/
def pyIsDigit (c : Char) : Bool :=
  '0' ≤ c && c ≤ '9'

/-- Python `str.isspace` on the ASCII fragment. -/
def pyIsSpace (c : Char) : Bool :=
  c = ' ' || c = '\t' || c = '\n' || c = '\r' || c = '\x0b' || c = '\x0c'

/-- Python single-character `str.isidentifier` on the ASCII fragment:
a letter or underscore. -/
def pyIsIdentStart (c : Char) : Bool :=
  ('a' ≤ c && c ≤ 'z') || ('A' ≤ c && c ≤ 'Z') || c = '_'

/-- Python `str.isalnum` on the ASCII fragment. -/
def pyIsAlnum (c : Char) : Bool :=
  ('a' ≤ c && c ≤ 'z') || ('A' ≤ c && c ≤ 'Z') || pyIsDigit c

/-- The `single_letter_tokens` dict from `scanner.py`. -/
def singleLetterTokens (c : Char) : Option Tok :=
  match c with
  | '(' => some .LEFT_PAREN
  | ')' => some .RIGHT_PAREN
  | '{' => some .LEFT_BRACE
  | '}' => some .RIGHT_BRACE
  | ',' => some .COMMA
  | '.' => some .DOT
  | '-' => some .MINUS
  | '+' => some .PLUS
  | ';' => some .SEMICOLON
  | '*' => some .STAR
  | _ => none

/-- The `dyad_tokens` dict from `scanner.py`: for each opening character the
two-character token (when followed by `=`) and the one-character default. -/
def dyadTokens (c : Char) : Option (Tok × Tok) :=
  match c with
  | '!' => some (.BANG_EQUAL, .BANG)
  | '=' => some (.EQUAL_EQUAL, .EQUAL)
  | '<' => some (.LESS_EQUAL, .LESS)
  | '>' => some (.GREATER_EQUAL, .GREATER)
  | _ => none

/-- The `KEYWORDS` dict from `scanner.py`. -/
def keywordTable (s : String) : Option Tok :=
  match s with
  | "and" => some .AND
  | "class" => some .CLASS
  | "else" => some .ELSE
  | "false" => some .FALSE
  | "for" => some .FOR
  | "fun" => some .FUN
  | "if" => some .IF
  | "nil" => some .NIL
  | "or" => some .OR
  | "print" => some .PRINT
  | "return" => some .RETURN
  | "super" => some .SUPER
  | "this" => some .THIS
  | "true" => some .TRUE
  | "var" => some .VAR
  | "while" => some .WHILE
  | _ => none

/-- `code[a:b]` as a `String`. -/
def pySlice (code : List Char) (a b : Nat) : String :=
  String.mk ((code.drop a).take (b - a))

/-!
Each scanning loop below advances its cursor by one while it stays inside
the source, so it finishes within `code.length + 1` steps from any start
index.  The loops are written with that step count as an explicit structural
bound (rather than by well-founded recursion on `code.length - i`) so that
concrete runs reduce inside the kernel; the `fuel = 0` fallbacks are
unreachable at the bounds the wrappers pass. -/

/-- Loop of `pyFindFrom`. -/
def pyFindFromGo (code : List Char) (ch : Char) : Nat → Nat → Option Nat
  | 0, _ => none
  | fuel + 1, start =>
    if h : start < code.length then
      if code[start] = ch then some start else pyFindFromGo code ch fuel (start + 1)
    else none

/-- `str.find(ch, start)`: index of the first occurrence of `ch` at or after
`start`, or `none` (Python `-1`). -/
def pyFindFrom (code : List Char) (ch : Char) (start : Nat) : Option Nat :=
  pyFindFromGo code ch (code.length + 1) start

/-- `dyad_token` from `scanner.py` (the dispatching character and its table
entry are passed in; the source re-reads them from `code[offset]`). -/
def dyadToken (c : Char) (two one : Tok) (code : List Char) (offset line : Nat) : Token :=
  match pyGet code (offset + 1) with
  | some '=' => ⟨two, String.mk [c, '='], offset, line, 2, 0⟩
  | _ => ⟨one, String.mk [c], offset, line, 1, 0⟩

/-- `slash_or_comment_token` from `scanner.py`. -/
def slashOrCommentToken (code : List Char) (offset line : Nat) : Token :=
  match pyGet code (offset + 1) with
  | some '/' =>
      match pyFindFrom code '\n' offset with
      | none => ⟨.COMMENT, pySlice code offset code.length, offset, line,
                 code.length - offset, 0⟩
      | some j => ⟨.COMMENT, pySlice code offset j, offset, line, j - offset, 0⟩
  | _ => ⟨.SLASH, "/", offset, line, 1, 0⟩

/-- The scanning loop of `string_token`: starting at index `i` (one past the
opening quote), walk to the closing quote.  Returns the index of the closing
quote together with the accumulated newline count; raises `ScannerError` when
the input ends first.  The newline test is applied, as in the source, to the
character reached *after* advancing the cursor. -/
def stringLoopGo (code : List Char) (line : Nat) : Nat → Nat → Nat →
    Except ScanErr (Nat × Nat)
  | 0, _, _ => .error .fuelOut
  | fuel + 1, i, n =>
    if pyGet code i = some '"' then .ok (i, n)
    else
      match pyGet code (i + 1) with
      | none => .error (.scanner line "Error: Unterminated string")
      | some ch => stringLoopGo code line fuel (i + 1) (if ch = '\n' then n + 1 else n)

/-- The scanning loop of `string_token`, from index `i` (one past the
opening quote). -/
def stringLoop (code : List Char) (line : Nat) (i n : Nat) :
    Except ScanErr (Nat × Nat) :=
  stringLoopGo code line (code.length + 1) i n

/-- `string_token` from `scanner.py`. -/
def stringToken (code : List Char) (offset line : Nat) : Except ScanErr Token := do
  let (iEnd, n) ← stringLoop code line (offset + 1) 0
  let value := pySlice code (offset + 1) iEnd
  pure ⟨.STRING, value, offset, line, value.length + 2, n⟩

/-- Loop of `digitsEnd`. -/
def digitsEndGo (code : List Char) : Nat → Nat → Nat
  | 0, i => i
  | fuel + 1, i =>
    if h : i < code.length then
      if pyIsDigit code[i] then digitsEndGo code fuel (i + 1) else i
    else i

/-- The digit-consuming loop of `number_token`: the first index at or after
`i` holding a non-digit (or the end of input). -/
def digitsEnd (code : List Char) (i : Nat) : Nat :=
  digitsEndGo code (code.length + 1) i

/-- `number_token` from `scanner.py`: a run of digits, optionally followed by
one `.` and at least one further digit. -/
def numberToken (code : List Char) (offset line : Nat) : Token :=
  let i1 := digitsEnd code (offset + 1)
  let c := pyGet code i1
  let next := pyGet code (i1 + 1)
  if c = some '.' && (next.map pyIsDigit).getD false then
    let i2 := digitsEnd code (i1 + 2)
    ⟨.NUMBER, pySlice code offset i2, offset, line, i2 - offset, 0⟩
  else
    ⟨.NUMBER, pySlice code offset i1, offset, line, i1 - offset, 0⟩

/-- Loop of `identEnd`. -/
def identEndGo (code : List Char) : Nat → Nat → Nat
  | 0, i => i
  | fuel + 1, i =>
    if h : i < code.length then
      if pyIsIdentStart code[i] || pyIsAlnum code[i] then identEndGo code fuel (i + 1)
      else i
    else i

/-- The identifier-consuming loop of `keyword_or_identifier_token`:
Python's `char.isidentifier() or char.isalnum()` continuation test. -/
def identEnd (code : List Char) (i : Nat) : Nat :=
  identEndGo code (code.length + 1) i

/-- `keyword_or_identifier_token` from `scanner.py`. -/
def keywordOrIdentifierToken (code : List Char) (offset line : Nat) : Token :=
  let i := identEnd code (offset + 1)
  let lexeme := pySlice code offset i
  match keywordTable lexeme with
  | some t => ⟨t, lexeme, offset, line, i - offset, 0⟩
  | none => ⟨.IDENTIFIER, lexeme, offset, line, i - offset, 0⟩

/-- Loop of `wsEnd`. -/
def wsEndGo (code : List Char) : Nat → Nat → Nat → Nat × Nat
  | 0, i, n => (i, n)
  | fuel + 1, i, n =>
    if h : i < code.length then
      if pyIsSpace code[i] then
        wsEndGo code fuel (i + 1) (if code[i] = '\n' then n + 1 else n)
      else (i, n)
    else (i, n)

/-- The whitespace-consuming loop of `whitespace_token`: first non-space
index and the number of newline characters passed over. -/
def wsEnd (code : List Char) (i n : Nat) : Nat × Nat :=
  wsEndGo code (code.length + 1) i n

/-- `whitespace_token` from `scanner.py`. -/
def whitespaceToken (code : List Char) (offset line : Nat) : Token :=
  let (i, n) := wsEnd code offset 0
  ⟨.WHITESPACE, pySlice code offset i, offset, line, i - offset, n⟩

/-- `get_next_token` from `scanner.py`: classify `code[offset]` and produce
one token.  The per-kind helpers the source re-dispatches to are inlined at
the branch that selected them. -/
def getNextToken (code : List Char) (offset line : Nat) : Except ScanErr Token :=
  match pyGet code offset with
  | none => .error .hostIndexError
  | some char =>
    match singleLetterTokens char with
    | some t => .ok ⟨t, String.mk [char], offset, line, 1, 0⟩
    | none =>
      match dyadTokens char with
      | some (two, one) => .ok (dyadToken char two one code offset line)
      | none =>
        if char = '/' then .ok (slashOrCommentToken code offset line)
        else if char = '"' then stringToken code offset line
        else if pyIsDigit char then .ok (numberToken code offset line)
        else if pyIsIdentStart char then .ok (keywordOrIdentifierToken code offset line)
        else if pyIsSpace char then .ok (whitespaceToken code offset line)
        else .error (.scanner line ("Unexpected Character: " ++ String.mk [char]))

/-- The loop of `generate_tokens`: while the cursor is inside the source,
emit the next token and advance by its length and newline count.  `fuel`
bounds the number of iterations (each real token has length at least one,
so `code.length + 1` is always enough). -/
def generateTokensGo (code : List Char) : Nat → Nat → Nat → Except ScanErr (List Token)
  | 0, i, _ => if i < code.length then .error .fuelOut else .ok []
  | fuel + 1, i, line =>
    if i < code.length then do
      let t ← getNextToken code i line
      let rest ← generateTokensGo code fuel (i + t.length) (line + t.n_newlines)
      pure (t :: rest)
    else .ok []

/-- `generate_tokens` from `scanner.py` (via the fuelled loop). -/
def generateTokens (code : List Char) : Except ScanErr (List Token) :=
  generateTokensGo code (code.length + 1) 0 1

/-- `is_useful_token` from `scanner.py`: false exactly for whitespace and
comment tokens (`USELESS_TOKENS`). -/
def isUsefulToken (t : Token) : Bool :=
  if t.token_type ∈ [Tok.WHITESPACE, Tok.COMMENT] then false else true

/-- `scan` from `scanner.py`: generate all tokens, keep the useful ones.
No end-of-input token is appended. -/
def scan (code : List Char) : Except ScanErr (List Token) := do
  let tokens ← generateTokens code
  pure (tokens.filter isUsefulToken)

/-! ## Runtime values

Lox values flowing through the interpreter: Python `None`, `bool`, `float`
(modelled exactly as `ℚ`; all arithmetic in the claims is exact) and `str`.
`LoxCallable` values and the `Call` expression are outside every claim and
are not modelled. -/

inductive Value where
  | nil
  | bool (b : Bool)
  | num (q : ℚ)
  | str (s : String)
deriving DecidableEq, Repr

/-- `isinstance(v, float)` (Python `bool` is not a `float`). -/
def Value.isNum : Value → Bool
  | .num _ => true
  | _ => false

/-- `isinstance(v, str)`. -/
def Value.isStr : Value → Bool
  | .str _ => true
  | _ => false

/-! ## Parser (`parser.py`, the active top-level functions)

The active parser functions build expressions carrying a `length` field
(`expr.Literal(token.value, 1)`, `expr.Binary(..., length=...)`,
`expr.Empty()`), but the `expr.py` module in the repository defines none of
these signatures: `Token` has no `value` attribute, `Literal`/`Binary`/
`Unary`/`Grouping` take no `length` argument, and `expr.Empty` and
`Tok.EMPTY` do not exist.  Each such host-level failure is embedded as the
exception Python would raise at that exact point, so every path through
`primary_expression` fails and the failure propagates up the ladder. -/

/-- Failures while parsing.  `parserError` is the source's
`ParserError{token, message}`; `attributeError`/`typeError` model the Python
exceptions raised by references to attributes and signatures that do not
exist in `tokens.py`/`expr.py`; `indexError` models a direct out-of-range
`tokens[i]`; `fuelOut` marks exhaustion of the recursion bound. -/
inductive ParseErr where
  | parserError (token : Option Token) (message : String)
  | attributeError (attr : String)
  | typeError (callee : String)
  | indexError
  | fuelOut
deriving DecidableEq, Repr

/-- The shape the active parser tries to build: an expression annotated with
the number of tokens it consumed.  No constructor application in
`parser.py` type-checks against `expr.py`, so parser results never
materialise; the type records the intended interface (`length`). -/
structure PExpr where
  length : Nat
deriving DecidableEq, Repr

/-- `get(tokens, i)` from `parser.py`: `tokens[i]`, with the `IndexError`
handler returning `Token(Tok.EMPTY, "")` — which itself raises
`AttributeError` because `Tok` has no member `EMPTY`. -/
def parserGet (tokens : List Token) (i : Nat) : Except ParseErr Token :=
  match tokens.get? i with
  | some t => .ok t
  | none => .error (.attributeError "EMPTY")

mutual

/-- `next_expression` from `parser.py`. -/
def nextExpression : Nat → List Token → Except ParseErr PExpr
  | 0, _ => .error .fuelOut
  | fuel + 1, tokens => equalityExpession fuel tokens

/-- `equality_expession` from `parser.py` (source spelling). -/
def equalityExpession : Nat → List Token → Except ParseErr PExpr
  | 0, _ => .error .fuelOut
  | fuel + 1, tokens => do
    let left ← comparisonExpression fuel tokens
    let token ← parserGet tokens left.length
    if token.token_type ∈ [Tok.BANG_EQUAL, Tok.EQUAL_EQUAL] then do
      let _right ← comparisonExpression fuel (tokens.drop (left.length + 1))
      -- expr.Binary(left, operator, right, length=...): Binary takes no
      -- `length` keyword, so the construction raises TypeError
      .error (.typeError "Binary")
    else pure left

/-- `comparison_expression` from `parser.py`. -/
def comparisonExpression : Nat → List Token → Except ParseErr PExpr
  | 0, _ => .error .fuelOut
  | fuel + 1, tokens => do
    let left ← termExpression fuel tokens
    let token ← parserGet tokens left.length
    if token.token_type ∈ [Tok.GREATER, Tok.GREATER_EQUAL, Tok.LESS, Tok.LESS_EQUAL] then do
      let _right ← termExpression fuel (tokens.drop (left.length + 1))
      .error (.typeError "Binary")
    else pure left

/-- `term_expression` from `parser.py`. -/
def termExpression : Nat → List Token → Except ParseErr PExpr
  | 0, _ => .error .fuelOut
  | fuel + 1, tokens => do
    let left ← factorExpression fuel tokens
    let token ← parserGet tokens left.length
    if token.token_type ∈ [Tok.PLUS, Tok.MINUS] then do
      let _right ← factorExpression fuel (tokens.drop (left.length + 1))
      .error (.typeError "Binary")
    else pure left

/-- `factor_expression` from `parser.py`. -/
def factorExpression : Nat → List Token → Except ParseErr PExpr
  | 0, _ => .error .fuelOut
  | fuel + 1, tokens => do
    let left ← unaryExpression fuel tokens
    let token ← parserGet tokens left.length
    if token.token_type ∈ [Tok.STAR, Tok.SLASH] then do
      let _right ← unaryExpression fuel (tokens.drop (left.length + 1))
      .error (.typeError "Binary")
    else pure left

/-- `unary_expression` from `parser.py`. -/
def unaryExpression : Nat → List Token → Except ParseErr PExpr
  | 0, _ => .error .fuelOut
  | fuel + 1, tokens => do
    let token ← parserGet tokens 0
    if token.token_type ∈ [Tok.BANG, Tok.MINUS] then do
      let _expression ← unaryExpression fuel (tokens.drop 1)
      -- expr.Unary(operator, right, length=...): no `length` keyword
      .error (.typeError "Unary")
    else primaryExpression fuel tokens

/-- `primary_expression` from `parser.py`. -/
def primaryExpression : Nat → List Token → Except ParseErr PExpr
  | 0, _ => .error .fuelOut
  | fuel + 1, tokens => do
    let token ← parserGet tokens 0
    match token.token_type with
    | .NUMBER | .STRING | .NIL =>
      -- expr.Literal(token.value, 1): Token has no attribute `value`
      .error (.attributeError "value")
    | .TRUE | .FALSE =>
      -- expr.Literal(True, 1) / expr.Literal(False, 1): Literal takes a
      -- single `value` argument, so the call raises TypeError
      .error (.typeError "Literal")
    | .LEFT_PAREN => groupingExpression fuel tokens
    | _ =>
      -- return expr.Empty(): the expr module has no attribute `Empty`
      .error (.attributeError "Empty")

/-- `grouping_expression` from `parser.py`. -/
def groupingExpression : Nat → List Token → Except ParseErr PExpr
  | 0, _ => .error .fuelOut
  | fuel + 1, tokens => do
    let expression ← nextExpression fuel (tokens.drop 1)
    match tokens.get? (expression.length + 1) with
    | none => .error .indexError
    | some nextToken =>
      if nextToken.token_type ≠ Tok.RIGHT_PAREN then
        .error (.parserError (some nextToken) "Expect ')' after expression.")
      else
        -- expr.Grouping(expression, length): Grouping takes no `length`
        .error (.typeError "Grouping")

end

/-! ## Environment: pure chained-frame model (`environment.py`)

`define`/`get_copy_with`/`assign` copy the frame dictionary and rebuild the
chain without mutating any existing object (this persistence is proved
separately on the explicit heap model below), so the interpreter-facing
behaviour of `Environment` is captured by a pure value: a frame of bindings
plus an optional enclosing frame.  The `globals` field is threaded by the
source but only ever read by function-call machinery outside the claims; in
the pure model it is omitted (the heap model keeps it). -/

/-- One environment value: `values` dict and `enclosing` chain. -/
inductive Env where
  | mk (values : List (String × Value)) (enclosing : Option Env)
deriving Repr

/-- The `values` dict of a frame. -/
def Env.values : Env → List (String × Value)
  | .mk v _ => v

/-- The `enclosing` frame. -/
def Env.enclosing : Env → Option Env
  | .mk _ e => e

/-- Python `dict.get`: the value bound to `k`, or `none`. -/
def dictGet (d : List (String × Value)) (k : String) : Option Value :=
  match d with
  | [] => none
  | (k', v) :: rest => if k' = k then some v else dictGet rest k

/-- Python `k in dict`. -/
def dictContains (d : List (String × Value)) (k : String) : Bool :=
  match d with
  | [] => false
  | (k', _) :: rest => if k' = k then true else dictContains rest k

/-- Python `d[k] = v` on a (copied) dict: replace in place when the key is
present, append otherwise. -/
def dictSet (d : List (String × Value)) (k : String) (v : Value) : List (String × Value) :=
  match d with
  | [] => [(k, v)]
  | (k', v') :: rest => if k' = k then (k', v) :: rest else (k', v') :: dictSet rest k v

/-! ## Interpreter (`interpreter.py`) -/

/-- Failures while interpreting.  `runtime` is the interpreter's
`RuntimeError(token, message)`; `zeroDivision` is the host
`ZeroDivisionError` that escapes the unguarded `/` branch;
`attributeError` is the host `AttributeError` raised when
`interpreter.py` references a module attribute that does not exist
(its dispatch tests `isinstance(statement, stmt.Expression)` although
`stmt.py` defines `ExpressionStmt`, not `Expression`);
`assertionFailed` is the host `AssertionError` of
`interpret_block_statement`; `notImplemented` covers the source's
`NotImplementedError`/`KeyError` paths; `fuelOut` marks exhaustion of the
recursion bound used for the enclosing-chain walk in the heap model of
`assign`. -/
inductive Err where
  | runtime (token : Token) (message : String)
  | zeroDivision
  | attributeError (attr : String)
  | assertionFailed
  | notImplemented
  | fuelOut
deriving DecidableEq, Repr

/-- `Environment.define` → `get_copy_with`: copy the dict, bind `name`,
keep the enclosing chain. -/
def envDefine (e : Env) (name : String) (v : Value) : Env :=
  .mk (dictSet e.values name v) e.enclosing

/-- `Environment.get`: look up `name.lexeme` with `dict.get`; because the
result is compared with `is None`, a stored `nil` is indistinguishable from
an absent key, and the lookup falls through to the enclosing frame or the
undefined-variable error. -/
def envGet (e : Env) (name : Token) : Except Err Value :=
  match e with
  | .mk values enclosing =>
    let value : Option Value :=
      match dictGet values name.lexeme with
      | some v => if v = Value.nil then none else some v
      | none => none
    match value, enclosing with
    | none, some f => envGet f name
    | none, none =>
        .error (.runtime name ("Undefined variable `" ++ name.lexeme ++ "`."))
    | some v, _ => .ok v

/-- `Environment.assign`: rebind in this frame when the key is present,
otherwise rebuild the chain around the enclosing frame's assignment, and
raise the undefined-variable error at the end of the chain. -/
def envAssign (e : Env) (name : Token) (v : Value) : Except Err Env :=
  match e with
  | .mk values enclosing =>
    if dictContains values name.lexeme then
      .ok (.mk (dictSet values name.lexeme v) enclosing)
    else
      match enclosing with
      | some f => do
          let f' ← envAssign f name v
          .ok (.mk values (some f'))
      | none =>
          .error (.runtime name ("Undefined variable `" ++ name.lexeme ++ "`."))

/-- `is_truthy` from `interpreter.py`. -/
def isTruthy : Value → Bool
  | .nil => false
  | .bool b => b
  | _ => true

/-- Python `==` on Lox values (`True == 1.0` holds because `bool` is an
integral type; values of unrelated types compare unequal). -/
def pyEquals : Value → Value → Bool
  | .num a, .num b => a = b
  | .str a, .str b => a = b
  | .bool a, .bool b => a = b
  | .bool a, .num b => (if a then (1 : ℚ) else 0) = b
  | .num a, .bool b => a = (if b then (1 : ℚ) else 0)
  | _, _ => false

/-- `is_equal` from `interpreter.py`: `nil` equals only `nil`, every other
pair by Python `==`. -/
def isEqual (l r : Value) : Bool :=
  match l, r with
  | .nil, .nil => true
  | .nil, _ => false
  | _, _ => pyEquals l r

/-- `BINARY_NUMERIC_OPERATIONS` from `interpreter.py`: the per-operator
lambdas.  Python float division raises `ZeroDivisionError` on a zero
divisor, and the `/` lambda is unguarded, so that branch is partial. -/
def binaryNumericOp (t : Tok) : Option (ℚ → ℚ → Except Err Value) :=
  match t with
  | .GREATER => some fun l r => .ok (.bool (decide (l > r)))
  | .GREATER_EQUAL => some fun l r => .ok (.bool (decide (l ≥ r)))
  | .LESS => some fun l r => .ok (.bool (decide (l < r)))
  | .LESS_EQUAL => some fun l r => .ok (.bool (decide (l ≤ r)))
  | .MINUS => some fun l r => .ok (.num (l - r))
  | .SLASH => some fun l r =>
      if r = 0 then .error .zeroDivision else .ok (.num (l / r))
  | .STAR => some fun l r => .ok (.num (l * r))
  | _ => none

/-- `ERROR_FLOAT_OPERANDS` from `interpreter.py`. -/
def ERROR_FLOAT_OPERANDS : String := "Operands must be numbers."

/-- `evaluate_binary_numeric` from `interpreter.py`: look the operation up,
require both operands to be numbers, then apply. -/
def evaluateBinaryNumeric (left : Value) (operator : Token) (right : Value) :
    Except Err Value :=
  match binaryNumericOp operator.token_type with
  | none => .error .notImplemented
  | some operation =>
    match left, right with
    | .num a, .num b => operation a b
    | _, _ => .error (.runtime operator ERROR_FLOAT_OPERANDS)

/-- `add` from `interpreter.py`: number+number, string+string, otherwise a
runtime error. -/
def addValues (left : Value) (operator : Token) (right : Value) : Except Err Value :=
  match left, right with
  | .num a, .num b => .ok (.num (a + b))
  | .str a, .str b => .ok (.str (a ++ b))
  | _, _ => .error (.runtime operator "Operands must be two numbers or two strings")

/-! ## AST (`expr.py` / `stmt.py`), restricted to the claim-relevant nodes
(`Call` / `LoxCallable` never occur in a claim and are not modelled). -/

/-- Expression nodes from `expr.py`. -/
inductive Expr where
  | literal (value : Value)
  | grouping (expression : Expr)
  | unary (operator : Token) (right : Expr)
  | binary (left : Expr) (operator : Token) (right : Expr)
  | variable (name : Token)
  | assign (name : Token) (value : Expr)
  | logical (left : Expr) (operator : Token) (right : Expr)
deriving DecidableEq, Repr

/-- Statement nodes as `stmt.py` actually defines them: `PrintStmt`,
`ExpressionStmt`, `VarStmt`, `BlockStmt`, `IfStmt`, `WhileStmt`.
(`interpreter.py`'s dispatch references the different names
`stmt.Expression`/`stmt.Var`/`stmt.Block`/`stmt.While`, which do not
exist — see `interpretStatement`.) -/
inductive Stmt where
  | printStmt (expression : Expr)
  | expressionStmt (expression : Expr)
  | varStmt (name : Token) (initialiser : Option Expr)
  | blockStmt (statements : List Stmt)
  | ifStmt (condition : Expr) (thenBranch : Stmt) (elseBranch : Option Stmt)
  | whileStmt (condition : Expr) (body : Stmt)
deriving Repr

/-- `evaluate` from `interpreter.py` (with its helpers
`evaluate_literal`, `evaluate_grouping`, `evaluate_unary`,
`evaluate_binary`, `evaluate_variable`, `evaluate_assign`,
`evaluate_logical`, `evaluate_logical_or`, `evaluate_logical_and`
inlined at their dispatch sites). -/
def evaluate : Expr → Env → Except Err (Value × Env)
  | .literal v, env => .ok (v, env)
  | .grouping e, env => evaluate e env
  | .unary operator r, env => do
    let (right, outputEnv) ← evaluate r env
    match operator.token_type with
    | .MINUS =>
      match right with
      | .num q => .ok (.num (-q), outputEnv)
      | _ => .error (.runtime operator "Operand must be a number.")
    | .BANG => .ok (.bool (! isTruthy right), outputEnv)
    | _ => .error (.runtime operator "Invalid operator.")
  | .binary l operator r, env => do
    let (left, newEnv) ← evaluate l env
    let (right, outputEnv) ← evaluate r newEnv
    match binaryNumericOp operator.token_type with
    | some _ => do
      let v ← evaluateBinaryNumeric left operator right
      pure (v, outputEnv)
    | none =>
      match operator.token_type with
      | .PLUS => do
        let v ← addValues left operator right
        pure (v, outputEnv)
      | .BANG_EQUAL => .ok (.bool (! isEqual left right), outputEnv)
      | .EQUAL_EQUAL => .ok (.bool (isEqual left right), outputEnv)
      | _ => .error (.runtime operator "Unexpected operator.")
  | .variable name, env => do
    let result ← envGet env name
    pure (result, env)
  | .assign name valueExpr, env => do
    let (value, newEnv) ← evaluate valueExpr env
    let outputEnv ← envAssign newEnv name value
    pure (Value.nil, outputEnv)
  | .logical l operator r, env =>
    match operator.token_type with
    | .OR => do
      let (leftValue, leftEnv) ← evaluate l env
      if isTruthy leftValue then pure (leftValue, leftEnv)
      else evaluate r leftEnv
    | .AND => do
      let (leftValue, leftEnv) ← evaluate l env
      if ! isTruthy leftValue then pure (leftValue, leftEnv)
      else evaluate r leftEnv
    | _ => .error (.runtime operator "Unrecognised logical operator.")

/-- `interpret_var_statement` from `interpreter.py`. -/
def interpretVarStatement (name : Token) (initialiser : Option Expr) (env : Env) :
    Except Err Env :=
  match initialiser with
  | none => .ok (envDefine env name.lexeme Value.nil)
  | some i => do
    let (value, newEnv) ← evaluate i env
    .ok (envDefine newEnv name.lexeme value)

/-- `interpret_statement` from `interpreter.py`.  Its first test,
`isinstance(statement, stmt.PrintStmt)`, names a class `stmt.py` defines,
so print statements execute; but the very next test is
`isinstance(statement, stmt.Expression)` and `stmt.py` defines
`ExpressionStmt`, not `Expression`, so for every other statement kind the
attribute access raises `AttributeError` before any further dispatch
(`stmt.Var`, `stmt.Block` and `stmt.While` are equally undefined, and the
`stmt.IfStmt` test is never reached).  No path recurses, so no fuel is
needed. -/
def interpretStatement (s : Stmt) (env : Env) : Except Err Env :=
  match s with
  | .printStmt e => do
    -- print(stringify(result)): the printed text is not modelled
    let (_, newEnv) ← evaluate e env
    pure newEnv
  | _ =>
    -- isinstance(statement, stmt.Expression): the stmt module has no
    -- attribute `Expression`, so the host AttributeError escapes here
    .error (.attributeError "Expression")

/-- `interpret_statements` from `interpreter.py`: fold
`interpret_statement` over the statements, threading the environment. -/
def interpretStatements : List Stmt → Env → Except Err Env
  | [], env => .ok env
  | s :: rest, env => do
    let env' ← interpretStatement s env
    interpretStatements rest env'

/-- `interpret_block_statement` from `interpreter.py`: run the statements in
a fresh child frame chained to `env`, then hand back the child's enclosing
frame (the `assert updated_env is not None` is the host assertion). -/
def interpretBlockStatement (statements : List Stmt) (env : Env) :
    Except Err Env := do
  let innerEnv := Env.mk [] (some env)
  let innerEnv' ← interpretStatements statements innerEnv
  match innerEnv'.enclosing with
  | some updatedEnv => pure updatedEnv
  | none => .error .assertionFailed

/-! ## Environment: explicit heap model (`environment.py`)

To state that `define`/`assign` do not mutate existing environments, the
Python object graph is made explicit: a heap of frame dictionaries and a
heap of `Environment` objects, addressed by allocation index.  Every
`Environment` field (`values`, `enclosing`, `globals`) is a pointer, exactly
as in CPython.  The source never writes to an already-allocated cell — the
only dict write (`output_values[key] = value` in `get_copy_with`) happens on
a fresh copy before it is stored — so both operations only append. -/

/-- A heap-resident `Environment` object: pointers into the two heaps. -/
structure EnvObj where
  values : Nat
  enclosing : Option Nat
  globals : Nat
deriving DecidableEq, Repr

/-- The heap: dict cells and `Environment` cells, addressed by index. -/
structure PyState where
  dicts : List (List (String × Value))
  envs : List EnvObj
deriving Repr

/-- Allocate a dict cell. -/
def allocDict (st : PyState) (d : List (String × Value)) : PyState × Nat :=
  ({ st with dicts := st.dicts ++ [d] }, st.dicts.length)

/-- Allocate an `Environment` cell. -/
def allocEnv (st : PyState) (o : EnvObj) : PyState × Nat :=
  ({ st with envs := st.envs ++ [o] }, st.envs.length)

/-- Read a dict cell (a dangling pointer reads the empty dict; the source
never creates one). -/
def readDict (st : PyState) (p : Nat) : List (String × Value) :=
  st.dicts.getD p []

/-- Read an `Environment` cell. -/
def readEnv (st : PyState) (p : Nat) : EnvObj :=
  st.envs.getD p ⟨0, none, 0⟩

/-- `Environment.__init__`: allocate a fresh empty dict when `values` is
`None`, and let `globals` default to the object itself. -/
def envInit (st : PyState) (valuesPtr : Option Nat) (enclosing : Option Nat)
    (globalsPtr : Option Nat) : PyState × Nat :=
  let (st1, d) :=
    match valuesPtr with
    | none => allocDict st []
    | some p => (st, p)
  let selfIdx := st1.envs.length
  let g :=
    match globalsPtr with
    | none => selfIdx
    | some gp => gp
  allocEnv st1 ⟨d, enclosing, g⟩

/-- `Environment.get_copy_with`: copy this frame's dict, bind `key`, and
build a new `Environment` sharing `enclosing` and `globals`. -/
def heapGetCopyWith (st : PyState) (p : Nat) (key : String) (v : Value) :
    PyState × Nat :=
  let obj := readEnv st p
  let outputValues := dictSet (readDict st obj.values) key v
  let (st1, dp) := allocDict st outputValues
  envInit st1 (some dp) obj.enclosing (some obj.globals)

/-- `Environment.define`. -/
def heapDefine (st : PyState) (p : Nat) (name : String) (v : Value) :
    PyState × Nat :=
  heapGetCopyWith st p name v

/-- `Environment.assign`: rebind here when the key is present, otherwise
rebuild around the enclosing frame's assignment (note the new object shares
this frame's dict pointer and, because `globals` is not passed, points to
itself as `globals`), and raise the undefined-variable error at the end of
the chain.  `fuel` bounds the walk (enclosing chains are acyclic, each
object pointing to an earlier allocation, so `p + 1` always suffices). -/
def heapAssign : Nat → PyState → Nat → Token → Value →
    Except Err (PyState × Nat)
  | 0, _, _, _, _ => .error .fuelOut
  | fuel + 1, st, p, name, v =>
    let obj := readEnv st p
    if dictContains (readDict st obj.values) name.lexeme then
      .ok (heapGetCopyWith st p name.lexeme v)
    else
      match obj.enclosing with
      | some q => do
        let (st1, q') ← heapAssign fuel st q name v
        .ok (envInit st1 (some obj.values) (some q') none)
      | none =>
        .error (.runtime name ("Undefined variable `" ++ name.lexeme ++ "`."))

/-- `st'` preserves every heap cell of `st`: the heaps only grow, and every
dict and `Environment` object allocated in `st` reads back unchanged. -/
structure HeapPreserves (st st' : PyState) : Prop where
  dictsLen : st.dicts.length ≤ st'.dicts.length
  envsLen : st.envs.length ≤ st'.envs.length
  dictsGet : ∀ i, i < st.dicts.length → st'.dicts[i]? = st.dicts[i]?
  envsGet : ∀ j, j < st.envs.length → st'.envs[j]? = st.envs[j]?

/-- The heap state used to witness the persistence claim: one global
environment whose dict binds `x` to `0`. -/
def stX0 : PyState := ⟨[[("x", .num 0)]], [⟨0, none, 0⟩]⟩

/-! ## Concrete fixtures used by the claims -/

/-- An identifier token for the variable `x`. -/
def tokX : Token := ⟨.IDENTIFIER, "x", 0, 1, 1, 0⟩

/-- A `-` operator token. -/
def minusTok : Token := ⟨.MINUS, "-", 0, 1, 1, 0⟩

/-- A `+` operator token. -/
def plusTok : Token := ⟨.PLUS, "+", 2, 1, 1, 0⟩

/-- A `*` operator token. -/
def starTok : Token := ⟨.STAR, "*", 6, 1, 1, 0⟩

/-- A `/` operator token. -/
def slashTok : Token := ⟨.SLASH, "/", 0, 1, 1, 0⟩

/-- An `or` keyword token. -/
def orTok : Token := ⟨.OR, "or", 0, 1, 2, 0⟩

/-- An `and` keyword token. -/
def andTok : Token := ⟨.AND, "and", 0, 1, 3, 0⟩

/-- The empty global environment. -/
def env0 : Env := .mk [] none

/-- The statements of the block `{ var x = 1; x = 2; }`: a `VarStmt`
declaring `x` initialised to `1`, then an `ExpressionStmt` assigning
`x = 2`. -/
def c1Block : List Stmt :=
  [.varStmt tokX (some (.literal (.num 1))),
   .expressionStmt (.assign tokX (.literal (.num 2)))]

/-- An environment whose only frame binds `x` to `0`. -/
def envX0 : Env := .mk [("x", .num 0)] none

/-- The token stream `scan` produces for the source `2 + 3 * 4;`. -/
def c9Tokens : List Token :=
  [⟨.NUMBER, "2", 0, 1, 1, 0⟩, ⟨.PLUS, "+", 2, 1, 1, 0⟩,
   ⟨.NUMBER, "3", 4, 1, 1, 0⟩, ⟨.STAR, "*", 6, 1, 1, 0⟩,
   ⟨.NUMBER, "4", 8, 1, 1, 0⟩, ⟨.SEMICOLON, ";", 9, 1, 1, 0⟩]

/-- The AST the specification expects for `2 + 3 * 4`:
`Binary(+, Literal(2), Binary(*, Literal(3), Literal(4)))`. -/
def c9Ast : Expr :=
  .binary (.literal (.num 2)) plusTok
    (.binary (.literal (.num 3)) starTok (.literal (.num 4)))

/-! ## Claims -/

/-- Claim C1 — the code at the failing input.  Executing the block
`{ var x = 1; x = 2; }` against an environment whose frame binds `x` to `0`
does not return an environment at all: `interpret_statement`'s dispatch
reaches `isinstance(statement, stmt.Expression)` on the first inner
statement (the `VarStmt`), and `stmt.py` defines no attribute `Expression`,
so the host `AttributeError` escapes — already at the single-statement
level — instead of the claim's result binding `x` to `2`. -/
theorem c1_dispatch_attribute_error :
    interpretStatement (.varStmt tokX (some (.literal (.num 1))))
        (Env.mk [] (some envX0)) = .error (.attributeError "Expression") ∧
    interpretBlockStatement c1Block envX0 = .error (.attributeError "Expression") :=
  ⟨rfl, rfl⟩

/-- Claim C7 — the code at the failing input.  Scanning the three-character
source `"` `\n` `"` (the string literal whose contents are one newline)
yields one STRING token with literal text `"\n"` but `n_newlines = 0`: the
loop in `string_token` applies its newline test only to characters reached
after advancing the cursor, so a newline in the first content position is
never counted, while the claim requires `newline_count = 1`. -/
theorem c7_first_content_newline_uncounted :
    scan ['"', '\n', '"'] = .ok [⟨.STRING, "\n", 0, 1, 3, 0⟩] ∧
    (("\n" : String).toList.count '\n' = 1) :=
  ⟨rfl, rfl⟩

/-- Claim C8 — the code at the failing input.  Scanning `1.5` yields exactly
one NUMBER token, but its only payload is the lexeme string `"1.5"`: the
`Token` record declares no `value`/`literal` field and the scanner performs
no float conversion, so no token carries `1.5` as a number (the parser's
`token.value` access would raise `AttributeError`). -/
theorem c8_number_token_carries_only_text :
    scan "1.5".toList = .ok [⟨.NUMBER, "1.5", 0, 1, 3, 0⟩] ∧
    scan "1.".toList =
      .ok [⟨.NUMBER, "1", 0, 1, 1, 0⟩, ⟨.DOT, ".", 1, 1, 1, 0⟩] :=
  ⟨rfl, rfl⟩

/-- Claim C9 — the code at the failing input.  Scanning `2 + 3 * 4;`
succeeds, but parsing the resulting token stream does not produce the
expected `Binary(+, Literal(2), Binary(*, Literal(3), Literal(4)))`: the
first NUMBER token sends `primary_expression` to `expr.Literal(token.value, 1)`
and `Token` has no attribute `value`, so the host `AttributeError` escapes.
Evaluating the AST the claim expects (built by hand) does yield `14`. -/
theorem c9_parse_crashes_on_number_literal :
    scan "2 + 3 * 4;".toList = .ok c9Tokens ∧
    nextExpression 99 c9Tokens = .error (.attributeError "value") ∧
    evaluate c9Ast env0 = .ok (.num 14, env0) := by
  refine ⟨rfl, rfl, ?_⟩
  simp [evaluate, c9Ast, env0, plusTok, starTok, binaryNumericOp,
    evaluateBinaryNumeric, addValues, Bind.bind, Except.bind, Functor.map,
    Except.map, Pure.pure, Except.pure]
  norm_num

/-- Claim C10.  When both operands of a `/` evaluate to numbers and the
right operand is `0`, `evaluate` does not produce the interpreter's
`RuntimeError(token, message)`: the `/` lambda in
`BINARY_NUMERIC_OPERATIONS` is unguarded, so the host's division-by-zero
exception escapes. -/
theorem c10_division_by_zero_escapes_evaluator :
    ∀ (l r : Expr) (operator : Token) (env env1 env2 : Env) (q : ℚ),
      operator.token_type = Tok.SLASH →
      evaluate l env = .ok (.num q, env1) →
      evaluate r env1 = .ok (.num 0, env2) →
      evaluate (.binary l operator r) env = .error .zeroDivision ∧
        ∀ (t : Token) (m : String), (Err.zeroDivision : Err) ≠ .runtime t m := by
  intro l r operator env env1 env2 q hop hl hr
  refine ⟨?_, by intro t m h; cases h⟩
  simp [evaluate, hl, hr, hop, binaryNumericOp, evaluateBinaryNumeric,
    Bind.bind, Except.bind, Functor.map, Except.map, Pure.pure, Except.pure]

/-- Claim C10 — witness: `1 / 0` at the empty environment. -/
theorem c10_witness :
    evaluate (.binary (.literal (.num 1)) slashTok (.literal (.num 0))) env0 =
      .error .zeroDivision ∧
      ∀ (t : Token) (m : String), (Err.zeroDivision : Err) ≠ .runtime t m :=
  c10_division_by_zero_escapes_evaluator (.literal (.num 1)) (.literal (.num 0))
    slashTok env0 env0 env0 1 rfl rfl rfl

/-- Binding a key always makes it readable back by `dictGet`. -/
theorem dictGet_dictSet_self (d : List (String × Value)) (k : String) (v : Value) :
    dictGet (dictSet d k v) k = some v := by
  induction d with
  | nil => simp [dictGet, dictSet]
  | cons hd tl ih =>
    obtain ⟨k', v'⟩ := hd
    by_cases h : k' = k <;> simp [dictGet, dictSet, h, ih]

/-- `define` leaves the enclosing chain untouched. -/
theorem envDefine_enclosing (e : Env) (n : String) (v : Value) :
    (envDefine e n v).enclosing = e.enclosing := by
  obtain ⟨values, enclosing⟩ := e
  rfl

/-- Claim C3.  A frame binding a name to `nil` is invisible to
`Environment.get` (the `dict.get` result is compared with `is None`):
lookup falls through to the enclosing frame when there is one and raises
the undefined-variable error otherwise; consequently `var n;` — which is
`interpret_var_statement` binding `nil` — produces a frame from which `n`
cannot be read back. -/
theorem c3_nil_binding_unreadable :
    ∀ (e : Env) (name : Token),
      (dictGet e.values name.lexeme = some Value.nil →
        (∀ f, e.enclosing = some f → envGet e name = envGet f name) ∧
        (e.enclosing = none →
          envGet e name =
            .error (.runtime name ("Undefined variable `" ++ name.lexeme ++ "`.")))) ∧
      (interpretVarStatement name none e = .ok (envDefine e name.lexeme Value.nil)) ∧
      (∀ f, e.enclosing = some f →
        envGet (envDefine e name.lexeme Value.nil) name = envGet f name) ∧
      (e.enclosing = none →
        envGet (envDefine e name.lexeme Value.nil) name =
          .error (.runtime name ("Undefined variable `" ++ name.lexeme ++ "`."))) := by
  intro e name
  obtain ⟨values, enclosing⟩ := e
  simp only [Env.values, Env.enclosing]
  refine ⟨?_, rfl, ?_, ?_⟩
  · intro h
    constructor
    · intro f hf
      subst hf
      simp [envGet, h]
    · intro hn
      subst hn
      simp [envGet, h]
  · intro f hf
    subst hf
    simp [envGet, envDefine, Env.values, Env.enclosing, dictGet_dictSet_self]
  · intro hn
    subst hn
    simp [envGet, envDefine, Env.values, Env.enclosing, dictGet_dictSet_self]

/-- Claim C3 — witness: a chain `{x ↦ nil} → {x ↦ 5}` at `x`. -/
theorem c3_witness :
    envGet (.mk [("x", .nil)] (some (.mk [("x", .num 5)] none))) tokX =
      envGet (.mk [("x", .num 5)] none) tokX :=
  ((c3_nil_binding_unreadable
      (.mk [("x", .nil)] (some (.mk [("x", .num 5)] none))) tokX).1 rfl).1
    (.mk [("x", .num 5)] none) rfl

/-- Claim C4.  Logical `or` returns the left operand's value itself when it
is truthy and otherwise evaluates to exactly what the right operand
evaluates to; `and` symmetrically with falsy; the right operand `r` is
universally quantified in the short-circuit cases, so it is never
evaluated there, and no boolean coercion is applied to the result. -/
theorem c4_logical_short_circuit :
    ∀ (l r : Expr) (operator : Token) (env env1 : Env) (v : Value),
      evaluate l env = .ok (v, env1) →
      ((operator.token_type = Tok.OR → isTruthy v = true →
          evaluate (.logical l operator r) env = .ok (v, env1)) ∧
       (operator.token_type = Tok.OR → isTruthy v = false →
          evaluate (.logical l operator r) env = evaluate r env1) ∧
       (operator.token_type = Tok.AND → isTruthy v = false →
          evaluate (.logical l operator r) env = .ok (v, env1)) ∧
       (operator.token_type = Tok.AND → isTruthy v = true →
          evaluate (.logical l operator r) env = evaluate r env1)) := by
  intro l r operator env env1 v hl
  refine ⟨?_, ?_, ?_, ?_⟩ <;> intro hop ht <;>
    simp [evaluate, hop, hl, ht, Bind.bind, Except.bind, Pure.pure, Except.pure]

/-- Claim C4 — witness: `1.0 or false` yields `1.0` (the number itself,
not a coerced boolean). -/
theorem c4_witness :
    evaluate (.logical (.literal (.num 1)) orTok (.literal (.bool false))) env0 =
      .ok (.num 1, env0) :=
  (c4_logical_short_circuit (.literal (.num 1)) (.literal (.bool false)) orTok
      env0 env0 (.num 1) rfl).1 rfl rfl

/-- Claim C5.  A Binary whose operator is one of `- / * > >= < <=` raises
the runtime error "Operands must be numbers." whenever the operands' values
are not both numbers, and `+` raises "Operands must be two numbers or two
strings" whenever they are neither both numbers nor both strings. -/
theorem c5_binary_operand_type_errors :
    ∀ (l r : Expr) (operator : Token) (env env1 env2 : Env) (lv rv : Value),
      evaluate l env = .ok (lv, env1) →
      evaluate r env1 = .ok (rv, env2) →
      ((operator.token_type ∈
          [Tok.GREATER, Tok.GREATER_EQUAL, Tok.LESS, Tok.LESS_EQUAL,
           Tok.MINUS, Tok.SLASH, Tok.STAR] →
        (lv.isNum && rv.isNum) = false →
        evaluate (.binary l operator r) env =
          .error (.runtime operator "Operands must be numbers.")) ∧
       (operator.token_type = Tok.PLUS →
        (lv.isNum && rv.isNum) = false →
        (lv.isStr && rv.isStr) = false →
        evaluate (.binary l operator r) env =
          .error (.runtime operator "Operands must be two numbers or two strings"))) := by
  intro l r operator env env1 env2 lv rv hl hr
  constructor
  · intro hmem hnum
    simp only [List.mem_cons, List.not_mem_nil, or_false] at hmem
    rcases hmem with h | h | h | h | h | h | h <;>
      cases lv <;> cases rv <;>
        simp_all [evaluate, binaryNumericOp, evaluateBinaryNumeric,
          ERROR_FLOAT_OPERANDS, Value.isNum, Bind.bind, Except.bind,
          Pure.pure, Except.pure, Functor.map, Except.map]
  · intro hplus hnum hstr
    cases lv <;> cases rv <;>
      simp_all [evaluate, binaryNumericOp, addValues, Value.isNum, Value.isStr,
        Bind.bind, Except.bind, Pure.pure, Except.pure, Functor.map, Except.map]

/-- Claim C5 — witness: `"a" - 1.0` raises "Operands must be numbers.", and
`nil + 1.0` raises "Operands must be two numbers or two strings". -/
theorem c5_witness :
    evaluate (.binary (.literal (.str "a")) minusTok (.literal (.num 1))) env0 =
      .error (.runtime minusTok "Operands must be numbers.") ∧
    evaluate (.binary (.literal .nil) plusTok (.literal (.num 1))) env0 =
      .error (.runtime plusTok "Operands must be two numbers or two strings") :=
  ⟨(c5_binary_operand_type_errors (.literal (.str "a")) (.literal (.num 1))
      minusTok env0 env0 env0 (.str "a") (.num 1) rfl rfl).1 (by decide) (by decide),
   (c5_binary_operand_type_errors (.literal .nil) (.literal (.num 1))
      plusTok env0 env0 env0 .nil (.num 1) rfl rfl).2 rfl (by decide) (by decide)⟩

/-- Heap preservation is reflexive. -/
theorem heapPreserves_refl (st : PyState) : HeapPreserves st st :=
  ⟨le_refl _, le_refl _, fun _ _ => rfl, fun _ _ => rfl⟩

/-- Heap preservation is transitive. -/
theorem heapPreserves_trans {a b c : PyState}
    (h1 : HeapPreserves a b) (h2 : HeapPreserves b c) : HeapPreserves a c := by
  refine ⟨le_trans h1.dictsLen h2.dictsLen, le_trans h1.envsLen h2.envsLen, ?_, ?_⟩
  · intro i hi
    rw [h2.dictsGet i (lt_of_lt_of_le hi h1.dictsLen), h1.dictsGet i hi]
  · intro j hj
    rw [h2.envsGet j (lt_of_lt_of_le hj h1.envsLen), h1.envsGet j hj]

/-- Allocating a dict cell preserves the heap. -/
theorem heapPreserves_allocDict (st : PyState) (d : List (String × Value)) :
    HeapPreserves st (allocDict st d).1 := by
  refine ⟨by simp [allocDict], by simp [allocDict], ?_, ?_⟩
  · intro i hi
    simp only [allocDict]
    exact List.getElem?_append_left hi
  · intro j hj
    simp [allocDict]

/-- Allocating an `Environment` cell preserves the heap. -/
theorem heapPreserves_allocEnv (st : PyState) (o : EnvObj) :
    HeapPreserves st (allocEnv st o).1 := by
  refine ⟨by simp [allocEnv], by simp [allocEnv], ?_, ?_⟩
  · intro i hi
    simp [allocEnv]
  · intro j hj
    simp only [allocEnv]
    exact List.getElem?_append_left hj

/-- `Environment.__init__` preserves the heap. -/
theorem heapPreserves_envInit (st : PyState) (vp : Option Nat)
    (enc : Option Nat) (gp : Option Nat) :
    HeapPreserves st (envInit st vp enc gp).1 := by
  cases vp with
  | none =>
    exact heapPreserves_trans (heapPreserves_allocDict st [])
      (heapPreserves_allocEnv (allocDict st []).1 _)
  | some p =>
    exact heapPreserves_allocEnv st _

/-- `get_copy_with` preserves the heap. -/
theorem heapPreserves_heapGetCopyWith (st : PyState) (p : Nat) (k : String)
    (v : Value) : HeapPreserves st (heapGetCopyWith st p k v).1 :=
  heapPreserves_trans
    (heapPreserves_allocDict st _)
    (heapPreserves_envInit _ _ _ _)

/-- The pointer `get_copy_with` returns is the next free `Environment`
index. -/
theorem heapGetCopyWith_ptr (st : PyState) (p : Nat) (k : String) (v : Value) :
    (heapGetCopyWith st p k v).2 = st.envs.length :=
  rfl

/-- Claim C2.  `Environment.define` and `Environment.assign` are persistent:
on the explicit heap, `define` always — and `assign` whenever it returns —
delivers a freshly allocated `Environment` (its pointer is past every
pre-existing object) and leaves every dict cell and `Environment` cell that
existed before the call unchanged, so the receiver and its whole enclosing
chain read back exactly as before. -/
theorem c2_define_assign_do_not_mutate :
    (∀ (st : PyState) (p : Nat) (n : String) (v : Value),
      HeapPreserves st (heapDefine st p n v).1 ∧
      (heapDefine st p n v).2 = st.envs.length) ∧
    (∀ (fuel : Nat) (st : PyState) (p : Nat) (name : Token) (v : Value)
        (st' : PyState) (p' : Nat),
      heapAssign fuel st p name v = .ok (st', p') →
      HeapPreserves st st' ∧ st.envs.length ≤ p') := by
  constructor
  · intro st p n v
    exact ⟨heapPreserves_heapGetCopyWith st p n v, heapGetCopyWith_ptr st p n v⟩
  · intro fuel
    induction fuel with
    | zero =>
      intro st p name v st' p' h
      simp [heapAssign] at h
    | succ fuel ih =>
      intro st p name v st' p' h
      by_cases hc : dictContains (readDict st (readEnv st p).values) name.lexeme
      · rw [heapAssign, if_pos hc] at h
        simp only [Except.ok.injEq] at h
        have hst : st' = (heapGetCopyWith st p name.lexeme v).1 :=
          (congrArg Prod.fst h).symm
        have hp2 : p' = (heapGetCopyWith st p name.lexeme v).2 :=
          (congrArg Prod.snd h).symm
        subst hst
        subst hp2
        exact ⟨heapPreserves_heapGetCopyWith st p name.lexeme v,
          le_of_eq (heapGetCopyWith_ptr st p name.lexeme v).symm⟩
      · cases henc : (readEnv st p).enclosing with
        | none =>
          simp [heapAssign, hc, henc] at h
        | some q =>
          cases hrec : heapAssign fuel st q name v with
          | error e =>
            simp [heapAssign, hc, henc, hrec, Bind.bind, Except.bind] at h
          | ok pr =>
            obtain ⟨st1, q'⟩ := pr
            obtain ⟨hp, _⟩ := ih st q name v st1 q' hrec
            simp only [heapAssign, hc, henc, hrec, Bind.bind, Except.bind,
              Bool.false_eq_true, if_false, Except.ok.injEq] at h
            have hst : st' =
                (envInit st1 (some (readEnv st p).values) (some q') none).1 :=
              (congrArg Prod.fst h).symm
            have hp2 : p' =
                (envInit st1 (some (readEnv st p).values) (some q') none).2 :=
              (congrArg Prod.snd h).symm
            subst hst
            subst hp2
            refine ⟨heapPreserves_trans hp (heapPreserves_envInit st1 _ _ _), ?_⟩
            have hfresh :
                (envInit st1 (some (readEnv st p).values) (some q') none).2 =
                  st1.envs.length := rfl
            rw [hfresh]
            exact hp.envsLen

/-- Claim C2 — witness: assigning `x := 1` on the one-frame heap `stX0`
succeeds, returns the fresh pointer `1`, and the pre-existing dict cell 0
(the frame of environment 0) reads back unchanged. -/
theorem c2_witness :
    heapAssign 2 stX0 0 tokX (.num 1) =
      .ok (⟨[[("x", .num 0)], [("x", .num 1)]],
            [⟨0, none, 0⟩, ⟨1, none, 0⟩]⟩, 1) ∧
    (⟨[[("x", .num 0)], [("x", .num 1)]],
      [⟨0, none, 0⟩, ⟨1, none, 0⟩]⟩ : PyState).dicts[0]? =
        stX0.dicts[0]? ∧
    stX0.envs.length ≤ 1 := by
  refine ⟨rfl, ?_, ?_⟩
  · exact (c2_define_assign_do_not_mutate.2 2 stX0 0 tokX (.num 1) _ 1 rfl).1.dictsGet
      0 (by decide)
  · exact (c2_define_assign_do_not_mutate.2 2 stX0 0 tokX (.num 1) _ 1 rfl).2

/-- No entry of `single_letter_tokens` is the end-of-input category. -/
theorem singleLetterTokens_ne_eof (c : Char) (t : Tok)
    (h : singleLetterTokens c = some t) : t ≠ Tok.EOF := by
  unfold singleLetterTokens at h
  split at h <;> cases h <;> decide

/-- No entry of `dyad_tokens` is the end-of-input category. -/
theorem dyadTokens_ne_eof (c : Char) (p : Tok × Tok)
    (h : dyadTokens c = some p) : p.1 ≠ Tok.EOF ∧ p.2 ≠ Tok.EOF := by
  unfold dyadTokens at h
  split at h <;> cases h <;> decide

/-- No entry of `KEYWORDS` is the end-of-input category. -/
theorem keywordTable_ne_eof (s : String) (t : Tok)
    (h : keywordTable s = some t) : t ≠ Tok.EOF := by
  unfold keywordTable at h
  split at h <;> cases h <;> decide

/-- `number_token` always emits a NUMBER token. -/
theorem numberToken_type (code : List Char) (offset line : Nat) :
    (numberToken code offset line).token_type = .NUMBER := by
  simp only [numberToken]
  split <;> rfl

/-- `keyword_or_identifier_token` emits a keyword or an identifier,
never the end-of-input category. -/
theorem keywordOrIdentifierToken_ne_eof (code : List Char) (offset line : Nat) :
    (keywordOrIdentifierToken code offset line).token_type ≠ .EOF := by
  simp only [keywordOrIdentifierToken]
  split
  next t ht => exact keywordTable_ne_eof _ _ ht
  next => simp

/-- `slash_or_comment_token` emits a SLASH or COMMENT token. -/
theorem slashOrCommentToken_type (code : List Char) (offset line : Nat) :
    (slashOrCommentToken code offset line).token_type = .SLASH ∨
      (slashOrCommentToken code offset line).token_type = .COMMENT := by
  simp only [slashOrCommentToken]
  split
  · split
    · right
      rfl
    · right
      rfl
  · left
    rfl

/-- `string_token` emits a STRING token whenever it succeeds. -/
theorem stringToken_ok_type (code : List Char) (offset line : Nat) (t : Token)
    (h : stringToken code offset line = .ok t) : t.token_type = .STRING := by
  unfold stringToken at h
  cases hs : stringLoop code line (offset + 1) 0 with
  | error e =>
    rw [hs] at h
    simp [Bind.bind, Except.bind] at h
  | ok pr =>
    obtain ⟨iEnd, n⟩ := pr
    rw [hs] at h
    simp only [Bind.bind, Except.bind, Pure.pure, Except.pure,
      Except.ok.injEq] at h
    subst h
    rfl

/-- `get_next_token` never emits the end-of-input category: every branch of
the dispatch returns a token drawn from the scanner's tables or one of the
literal categories. -/
theorem getNextToken_ne_eof {code : List Char} {i line : Nat} {t : Token}
    (h : getNextToken code i line = .ok t) : t.token_type ≠ .EOF := by
  unfold getNextToken at h
  split at h
  · cases h
  next char =>
    split at h
    next tt hs =>
      cases h
      exact singleLetterTokens_ne_eof _ _ hs
    next =>
      split at h
      next two one hd =>
        cases h
        have hne := dyadTokens_ne_eof _ _ hd
        unfold dyadToken
        split
        · exact hne.1
        · exact hne.2
      next =>
        split at h
        · cases h
          rcases slashOrCommentToken_type code i line with hs | hs <;>
            simp [hs]
        · split at h
          · have := stringToken_ok_type code i line t h
            simp [this]
          · split at h
            · cases h
              simp [numberToken_type]
            · split at h
              · cases h
                exact keywordOrIdentifierToken_ne_eof code i line
              · split at h
                · cases h
                  simp [whitespaceToken]
                · cases h

/-- Tokens produced by the `generate_tokens` loop never have the
end-of-input category. -/
theorem generateTokensGo_ne_eof (code : List Char) :
    ∀ (fuel i line : Nat) (ts : List Token),
      generateTokensGo code fuel i line = .ok ts →
      ∀ t ∈ ts, t.token_type ≠ .EOF := by
  intro fuel
  induction fuel with
  | zero =>
    intro i line ts h t ht
    rw [generateTokensGo] at h
    split at h
    · cases h
    · cases h
      simp at ht
  | succ fuel ih =>
    intro i line ts h t ht
    rw [generateTokensGo] at h
    split at h
    · cases hg : getNextToken code i line with
      | error e =>
        rw [hg] at h
        simp [Bind.bind, Except.bind] at h
      | ok tok =>
        rw [hg] at h
        simp only [Bind.bind, Except.bind] at h
        cases hrest :
            generateTokensGo code fuel (i + tok.length) (line + tok.n_newlines) with
        | error e =>
          rw [hrest] at h
          simp at h
        | ok rest =>
          rw [hrest] at h
          simp only [Pure.pure, Except.pure, Except.ok.injEq] at h
          subst h
          rcases List.mem_cons.mp ht with hh | hh
          · subst hh
            exact getNextToken_ne_eof hg
          · exact ih (i + tok.length) (line + tok.n_newlines) rest hrest t hh
    · cases h
      simp at ht

/-- Claim C6 — amended.  Whenever `scan` succeeds, the returned token
sequence contains no whitespace token and no comment token (they are
filtered out), and also no end-of-input token: `scan` never appends one. -/
theorem c6_scan_keeps_only_useful_tokens :
    ∀ (code : List Char) (tokens : List Token),
      scan code = .ok tokens →
      ∀ t ∈ tokens,
        t.token_type ≠ .WHITESPACE ∧ t.token_type ≠ .COMMENT ∧
          t.token_type ≠ .EOF := by
  intro code tokens h t ht
  unfold scan at h
  cases hg : generateTokens code with
  | error e =>
    rw [hg] at h
    simp [Bind.bind, Except.bind] at h
  | ok ts =>
    rw [hg] at h
    simp only [Bind.bind, Except.bind, Pure.pure, Except.pure,
      Except.ok.injEq] at h
    subst h
    have hmem := List.mem_filter.mp ht
    have huse := hmem.2
    unfold generateTokens at hg
    refine ⟨?_, ?_, generateTokensGo_ne_eof code _ _ _ _ hg t hmem.1⟩
    · intro he
      simp [isUsefulToken, he] at huse
    · intro he
      simp [isUsefulToken, he] at huse

/-- Claim C6 — counterexample.  Scanning the source `+` returns a stream
whose last (and only) element is the PLUS token, not an end-of-input token:
`scan` performs only the filtering pass and appends nothing. -/
theorem c6_counterexample :
    scan ['+'] = .ok [⟨.PLUS, "+", 0, 1, 1, 0⟩] ∧
    (⟨.PLUS, "+", 0, 1, 1, 0⟩ : Token).token_type ≠ .EOF :=
  ⟨rfl, by decide⟩

/-- Claim C6 — witness: the PLUS token of `scan "+"` is neither whitespace
nor comment nor end-of-input. -/
theorem c6_witness :
    (⟨.PLUS, "+", 0, 1, 1, 0⟩ : Token).token_type ≠ .WHITESPACE ∧
    (⟨.PLUS, "+", 0, 1, 1, 0⟩ : Token).token_type ≠ .COMMENT ∧
    (⟨.PLUS, "+", 0, 1, 1, 0⟩ : Token).token_type ≠ .EOF :=
  c6_scan_keeps_only_useful_tokens ['+'] [⟨.PLUS, "+", 0, 1, 1, 0⟩] rfl
    ⟨.PLUS, "+", 0, 1, 1, 0⟩ (by simp)

end Pylox
